import Mathlib

/-!
Verification of the ClimateGuard risk-scoring engine
(`backend/app/services/prediction_service.py`, class `PredictionService`).

Python floats are modelled as exact rationals (ℚ).  Every call to
`random.uniform(a, b)` is modelled by an explicitly passed draw value:
either the drawn value itself (constrained to `[a, b]` in theorem
hypotheses) or, for the seasonal adjustment whose interval depends on the
branch taken, a unit draw `u ∈ [0, 1]` mapped through
`uniform a b u = a + u * (b - a)`.  The calendar month read from
`datetime.now()` is an explicit `ℕ` argument.
-/

set_option linter.unusedVariables false

/-- The four climate readings of `ClimateData` (schemas/prediction.py). -/
structure ClimateData where
  temperature : ℚ
  precipitation : ℚ
  humidity : ℚ
  wind_speed : ℚ

/-- One hazard's weighting table, an entry of `self.risk_factors`. -/
structure RiskFactorWeights where
  precipitation_weight : ℚ
  temperature_weight : ℚ
  humidity_weight : ℚ
  wind_weight : ℚ
deriving DecidableEq

/-- The `self.risk_factors` dict: weighting tables keyed by hazard tag,
`None` for tags outside the five-hazard table. -/
def risk_factors (risk_type : String) : Option RiskFactorWeights :=
  if risk_type = "flood" then some ⟨0.4, 0.1, 0.3, 0.2⟩
  else if risk_type = "drought" then some ⟨-0.5, 0.3, -0.2, 0.1⟩
  else if risk_type = "heatwave" then some ⟨-0.1, 0.6, 0.2, -0.1⟩
  else if risk_type = "wildfire" then some ⟨-0.3, 0.4, -0.2, 0.3⟩
  else if risk_type = "storm" then some ⟨0.3, 0.1, 0.2, 0.4⟩
  else none

/-- The keys of `self.risk_factors` in dict insertion order, as iterated
by `_determine_primary_risk`. -/
def hazard_keys : List String := ["flood", "drought", "heatwave", "wildfire", "storm"]

/-- The `self.risk_thresholds` dict. -/
structure RiskThresholds where
  low : ℚ
  medium : ℚ
  high : ℚ

/-- `self.risk_thresholds = {"low": 0.3, "medium": 0.6, "high": 0.8}`. -/
def risk_thresholds : RiskThresholds := ⟨0.3, 0.6, 0.8⟩

/-- `random.uniform a b` decomposed through a unit draw `u ∈ [0, 1]`. -/
def uniform (a b u : ℚ) : ℚ := a + u * (b - a)

/-- The random draws consumed by one `_calculate_risk_score` call:
`unknown_draw` is the value of `random.uniform(0.2, 0.8)` used for unknown
hazard tags, `random_factor` the value of `random.uniform(0.8, 1.2)`, and
`seasonal_u` the unit draw feeding the seasonal `random.uniform` call. -/
structure Draws where
  unknown_draw : ℚ
  random_factor : ℚ
  seasonal_u : ℚ

/-- The draws lie in the supports of the `random.uniform` calls that
produce them. -/
def Draws.Valid (d : Draws) : Prop :=
  0.2 ≤ d.unknown_draw ∧ d.unknown_draw ≤ 0.8 ∧
  0.8 ≤ d.random_factor ∧ d.random_factor ≤ 1.2 ∧
  0 ≤ d.seasonal_u ∧ d.seasonal_u ≤ 1

/-- `temp_norm = min(max((climate_data.temperature + 10) / 60, 0), 1)`. -/
def temp_norm (cd : ClimateData) : ℚ := min (max ((cd.temperature + 10) / 60) 0) 1

/-- `precip_norm = min(climate_data.precipitation / 100, 1)`. -/
def precip_norm (cd : ClimateData) : ℚ := min (cd.precipitation / 100) 1

/-- `humidity_norm = climate_data.humidity / 100`. -/
def humidity_norm (cd : ClimateData) : ℚ := cd.humidity / 100

/-- `wind_norm = min(climate_data.wind_speed / 100, 1)`. -/
def wind_norm (cd : ClimateData) : ℚ := min (cd.wind_speed / 100) 1

/-- `_get_seasonal_adjustment(risk_type)`, with the month read from
`datetime.now()` and the unit draw of the chosen `random.uniform` call
passed explicitly. -/
def get_seasonal_adjustment (risk_type : String) (month : ℕ) (u : ℚ) : ℚ :=
  if risk_type = "heatwave" ∧ (month = 6 ∨ month = 7 ∨ month = 8) then uniform 0.1 0.2 u
  else if risk_type = "flood" ∧ (month = 3 ∨ month = 4 ∨ month = 5) then uniform 0.05 0.15 u
  else if risk_type = "drought" ∧ (month = 7 ∨ month = 8 ∨ month = 9) then uniform 0.05 0.15 u
  else if risk_type = "storm" ∧ (month = 9 ∨ month = 10 ∨ month = 11) then uniform 0.05 0.15 u
  else uniform (-0.05) 0.05 u

/-- `_calculate_risk_score(climate_data, risk_type)` with the month and
the random draws passed explicitly. -/
def calculate_risk_score (cd : ClimateData) (risk_type : String) (month : ℕ) (d : Draws) : ℚ :=
  match risk_factors risk_type with
  | none => d.unknown_draw
  | some factors =>
    let score :=
      factors.temperature_weight * temp_norm cd +
      factors.precipitation_weight * precip_norm cd +
      factors.humidity_weight * humidity_norm cd +
      factors.wind_weight * wind_norm cd
    let base_score := (score + 1) / 2
    let final_score := min (max (base_score * d.random_factor) 0) 1
    min (max (final_score + get_seasonal_adjustment risk_type month d.seasonal_u) 0) 1

/-- `_get_risk_level(risk_score)` over an arbitrary threshold table. -/
def get_risk_level_with (th : RiskThresholds) (risk_score : ℚ) : String :=
  if risk_score ≥ th.high then (if risk_score ≥ 0.9 then "critical" else "high")
  else if risk_score ≥ th.medium then "medium"
  else "low"

/-- `_get_risk_level(risk_score)` with the service's threshold table. -/
def get_risk_level (risk_score : ℚ) : String := get_risk_level_with risk_thresholds risk_score

/-- `_calculate_confidence(climate_data, risk_type)` with the value of
`random.uniform(0.9, 1.1)` passed explicitly as `j`. -/
def calculate_confidence (cd : ClimateData) (risk_type : String) (j : ℚ) : ℚ :=
  let base_confidence : ℚ := 0.75
  let data_completeness : ℚ := 1.0
  let extremeness_penalty : ℚ :=
    (if cd.temperature > 45 ∨ cd.temperature < -20 then (0.1 : ℚ) else 0) +
    (if cd.precipitation > 200 then (0.1 : ℚ) else 0) +
    (if cd.wind_speed > 80 then (0.1 : ℚ) else 0)
  min (max ((base_confidence * data_completeness - extremeness_penalty) * j) 0.3) 0.95

/-- The score `_determine_primary_risk` computes for one hazard, using
that hazard's own draws. -/
def score_of (cd : ClimateData) (month : ℕ) (draws : String → Draws) (rt : String) : ℚ :=
  calculate_risk_score cd rt month (draws rt)

/-- One step of Python's `max(scores, key=scores.get)`: the running best
key is replaced only when the next key's score is strictly greater. -/
def argmax_step (f : String → ℚ) (best x : String) : String :=
  if f x > f best then x else best

/-- `_determine_primary_risk(climate_data)`: scores all five hazards and
takes `max(scores, key=scores.get)`, which keeps the first key attaining
the maximum (later keys replace the best only on strict increase). -/
def determine_primary_risk (cd : ClimateData) (month : ℕ) (draws : String → Draws) : String :=
  List.foldl (argmax_step (score_of cd month draws))
    "flood" ["drought", "heatwave", "wildfire", "storm"]

/-- The months in which a hazard's canonical season falls, mirroring the
branch conditions of `_get_seasonal_adjustment`. -/
def inSeason (risk_type : String) (month : ℕ) : Prop :=
  (risk_type = "heatwave" ∧ (month = 6 ∨ month = 7 ∨ month = 8)) ∨
  (risk_type = "flood" ∧ (month = 3 ∨ month = 4 ∨ month = 5)) ∨
  (risk_type = "drought" ∧ (month = 7 ∨ month = 8 ∨ month = 9)) ∨
  (risk_type = "storm" ∧ (month = 9 ∨ month = 10 ∨ month = 11))

instance (rt : String) (m : ℕ) : Decidable (inSeason rt m) := by
  unfold inSeason; infer_instance

/-- Rank of a risk level in the order low < medium < high < critical. -/
def levelRank (level : String) : ℕ :=
  if level = "low" then 0
  else if level = "medium" then 1
  else if level = "high" then 2
  else if level = "critical" then 3
  else 4

example : temp_norm ⟨200, 0, 0, 0⟩ = 1 := by norm_num [temp_norm]
example : precip_norm ⟨0, -50, 0, 0⟩ = -(1/2) := by norm_num [precip_norm]
example : risk_factors "tsunami" = none := by decide
example : get_risk_level 0.85 = "high" := by norm_num [get_risk_level, get_risk_level_with, risk_thresholds]

/-!  ## Helper lemmas  -/

theorem calculate_risk_score_known (cd : ClimateData) (rt : String)
    (factors : RiskFactorWeights) (month : ℕ) (d : Draws)
    (h : risk_factors rt = some factors) :
    calculate_risk_score cd rt month d =
      min (max (min (max ((factors.temperature_weight * temp_norm cd +
            factors.precipitation_weight * precip_norm cd +
            factors.humidity_weight * humidity_norm cd +
            factors.wind_weight * wind_norm cd + 1) / 2 * d.random_factor) 0) 1 +
          get_seasonal_adjustment rt month d.seasonal_u) 0) 1 := by
  unfold calculate_risk_score
  rw [h]

theorem calculate_risk_score_unknown (cd : ClimateData) (rt : String) (month : ℕ) (d : Draws)
    (h : risk_factors rt = none) :
    calculate_risk_score cd rt month d = d.unknown_draw := by
  unfold calculate_risk_score
  rw [h]

/-!  ## Claims  -/

/-- Claim C1: for every observation, hazard tag, month and draw of the
random factors (each in its uniform support), the risk score lies in
[0, 1] and the confidence lies in [0.3, 0.95]. -/
theorem engine_clamp_invariant (cd : ClimateData) (risk_type : String) (month : ℕ)
    (d : Draws) (j : ℚ) (hd : d.Valid) :
    (0 ≤ calculate_risk_score cd risk_type month d ∧
      calculate_risk_score cd risk_type month d ≤ 1) ∧
    (0.3 ≤ calculate_confidence cd risk_type j ∧
      calculate_confidence cd risk_type j ≤ 0.95) := by
  obtain ⟨hu1, hu2, -, -, -, -⟩ := hd
  constructor
  · rcases hrf : risk_factors risk_type with - | factors
    · rw [calculate_risk_score_unknown cd risk_type month d hrf]
      constructor <;> linarith
    · rw [calculate_risk_score_known cd risk_type factors month d hrf]
      exact ⟨le_min (le_max_right _ _) (by norm_num), min_le_right _ _⟩
  · exact ⟨le_min (le_max_right _ _) (by norm_num), min_le_right _ _⟩

theorem engine_clamp_invariant_witness :
    (0 ≤ calculate_risk_score ⟨200, -50, 150, 30⟩ "tsunami" 7 ⟨1/2, 1, 1/2⟩ ∧
      calculate_risk_score ⟨200, -50, 150, 30⟩ "tsunami" 7 ⟨1/2, 1, 1/2⟩ ≤ 1) ∧
    (0.3 ≤ calculate_confidence ⟨200, -50, 150, 30⟩ "tsunami" 1 ∧
      calculate_confidence ⟨200, -50, 150, 30⟩ "tsunami" 1 ≤ 0.95) :=
  engine_clamp_invariant ⟨200, -50, 150, 30⟩ "tsunami" 7 ⟨1/2, 1, 1/2⟩ 1
    (by norm_num [Draws.Valid])

/-- Claim C2 counterexample: at precipitation = −50 (an input below the
nominal range) the normalized precipitation is −1/2, outside [0, 1], so
not every normalized field value saturates at 0 below the range. -/
theorem normalization_counterexample :
    precip_norm ⟨20, -50, 50, 10⟩ = -(1/2) ∧
    ¬ (0 ≤ precip_norm ⟨20, -50, 50, 10⟩) := by
  norm_num [precip_norm]

/-- Claim C2 (amended): temperature normalization is clamped to [0, 1] on
both sides; precipitation and wind normalization saturate at 1 above but
are not clamped below; humidity normalization is h/100 unclamped; when
precipitation and wind speed are nonnegative and humidity lies in
[0, 100], all four normalized values lie in [0, 1]. -/
theorem normalization_bands (cd : ClimateData) :
    (0 ≤ temp_norm cd ∧ temp_norm cd ≤ 1) ∧
    (precip_norm cd ≤ 1 ∧ wind_norm cd ≤ 1) ∧
    (humidity_norm cd = cd.humidity / 100) ∧
    (0 ≤ cd.precipitation → 0 ≤ cd.humidity → cd.humidity ≤ 100 → 0 ≤ cd.wind_speed →
      0 ≤ precip_norm cd ∧ 0 ≤ humidity_norm cd ∧ humidity_norm cd ≤ 1 ∧ 0 ≤ wind_norm cd) := by
  refine ⟨⟨le_min (le_max_right _ _) (by norm_num), min_le_right _ _⟩,
    ⟨min_le_right _ _, min_le_right _ _⟩, rfl, fun hp hh1 hh2 hw => ⟨?_, ?_, ?_, ?_⟩⟩
  · exact le_min (div_nonneg hp (by norm_num)) (by norm_num)
  · exact div_nonneg hh1 (by norm_num)
  · unfold humidity_norm; linarith
  · exact le_min (div_nonneg hw (by norm_num)) (by norm_num)

theorem normalization_bands_witness :
    0 ≤ precip_norm ⟨20, 30, 50, 10⟩ ∧ 0 ≤ humidity_norm ⟨20, 30, 50, 10⟩ ∧
      humidity_norm ⟨20, 30, 50, 10⟩ ≤ 1 ∧ 0 ≤ wind_norm ⟨20, 30, 50, 10⟩ :=
  (normalization_bands ⟨20, 30, 50, 10⟩).2.2.2 (by norm_num) (by norm_num) (by norm_num)
    (by norm_num)

/-- Claim C3: the classification returns "low" iff s < 0.6, "medium" iff
0.6 ≤ s < 0.8, "high" iff 0.8 ≤ s < 0.9 and "critical" iff s ≥ 0.9, and
it is monotone in the rank order low < medium < high < critical. -/
theorem risk_level_bands :
    (∀ s : ℚ, get_risk_level s =
      if s < 0.6 then "low"
      else if s < 0.8 then "medium"
      else if s < 0.9 then "high"
      else "critical") ∧
    (∀ s t : ℚ, s ≤ t → levelRank (get_risk_level s) ≤ levelRank (get_risk_level t)) := by
  have hbands : ∀ s : ℚ, get_risk_level s =
      if s < 0.6 then "low"
      else if s < 0.8 then "medium"
      else if s < 0.9 then "high"
      else "critical" := by
    intro s
    unfold get_risk_level get_risk_level_with risk_thresholds
    split_ifs <;> first | rfl | (exfalso; linarith)
  refine ⟨hbands, fun s t hst => ?_⟩
  rw [hbands s, hbands t]
  split_ifs <;> first | decide | (exfalso; linarith)

theorem risk_level_bands_witness :
    levelRank (get_risk_level 0.5) ≤ levelRank (get_risk_level 0.95) :=
  risk_level_bands.2 0.5 0.95 (by norm_num)

/-- Claim C4: the confidence equals clamp((0.75 − p) · j, 0.3, 0.95) with
p the sum of 0.1-penalties for the three extremeness conditions, p ≤ 0.3;
for {temperature=50, precipitation=250, humidity=50, wind=90} and any
jitter j ∈ [0.9, 1.1] the confidence lies in [0.405, 0.495]. -/
theorem confidence_model (cd : ClimateData) (rt : String) (j : ℚ)
    (hj1 : 0.9 ≤ j) (hj2 : j ≤ 1.1) :
    (calculate_confidence cd rt j =
      min (max ((0.75 -
        ((if cd.temperature > 45 ∨ cd.temperature < -20 then (0.1 : ℚ) else 0) +
         (if cd.precipitation > 200 then (0.1 : ℚ) else 0) +
         (if cd.wind_speed > 80 then (0.1 : ℚ) else 0))) * j) 0.3) 0.95) ∧
    ((if cd.temperature > 45 ∨ cd.temperature < -20 then (0.1 : ℚ) else 0) +
       (if cd.precipitation > 200 then (0.1 : ℚ) else 0) +
       (if cd.wind_speed > 80 then (0.1 : ℚ) else 0) ≤ 0.3) ∧
    (0.405 ≤ calculate_confidence ⟨50, 250, 50, 90⟩ rt j ∧
      calculate_confidence ⟨50, 250, 50, 90⟩ rt j ≤ 0.495) := by
  refine ⟨?_, ?_, ?_⟩
  · unfold calculate_confidence
    norm_num
  · split_ifs <;> norm_num
  · have hpen : calculate_confidence ⟨50, 250, 50, 90⟩ rt j =
        min (max (0.45 * j) 0.3) 0.95 := by
      unfold calculate_confidence
      norm_num
    rw [hpen, max_eq_left (by linarith), min_eq_left (by linarith)]
    constructor <;> linarith

theorem confidence_model_witness :
    0.405 ≤ calculate_confidence ⟨50, 250, 50, 90⟩ "storm" 1 ∧
      calculate_confidence ⟨50, 250, 50, 90⟩ "storm" 1 ≤ 0.495 :=
  (confidence_model ⟨50, 250, 50, 90⟩ "storm" 1 (by norm_num) (by norm_num)).2.2

/-- Claim C5: a hazard tag outside the five-hazard table (such as
"tsunami") never errors: the score is exactly the uniform draw from
[0.2, 0.8], with no weighting, realism factor or seasonal adjustment
applied, hence itself lies in [0.2, 0.8]. -/
theorem unknown_hazard_fallback (cd : ClimateData) (month : ℕ) (d : Draws) (rt : String)
    (h : risk_factors rt = none) (h1 : 0.2 ≤ d.unknown_draw) (h2 : d.unknown_draw ≤ 0.8) :
    risk_factors "tsunami" = none ∧
    calculate_risk_score cd rt month d = d.unknown_draw ∧
    0.2 ≤ calculate_risk_score cd rt month d ∧
    calculate_risk_score cd rt month d ≤ 0.8 := by
  have he := calculate_risk_score_unknown cd rt month d h
  exact ⟨by decide, he, by rw [he]; exact h1, by rw [he]; exact h2⟩

theorem unknown_hazard_fallback_witness :
    risk_factors "tsunami" = none ∧
    calculate_risk_score ⟨20, 30, 50, 10⟩ "tsunami" 4 ⟨1/2, 1, 0⟩ = (1/2 : ℚ) ∧
    0.2 ≤ calculate_risk_score ⟨20, 30, 50, 10⟩ "tsunami" 4 ⟨1/2, 1, 0⟩ ∧
    calculate_risk_score ⟨20, 30, 50, 10⟩ "tsunami" 4 ⟨1/2, 1, 0⟩ ≤ 0.8 :=
  unknown_hazard_fallback ⟨20, 30, 50, 10⟩ 4 ⟨1/2, 1, 0⟩ "tsunami"
    (by decide) (by norm_num) (by norm_num)

/-- Claim C7: for a hazard in the table and any realism draw, the score
before the seasonal step is clamp((Σ weight·normalized + 1)/2 · r, 0, 1)
with the hazard's fixed signed weights (drought's precipitation weight is
−0.5), and the final score adds the seasonal adjustment and clamps. -/
theorem known_hazard_score_shape (cd : ClimateData) (rt : String)
    (factors : RiskFactorWeights) (month : ℕ) (d : Draws)
    (h : risk_factors rt = some factors) :
    calculate_risk_score cd rt month d =
      min (max (min (max ((factors.temperature_weight * temp_norm cd +
            factors.precipitation_weight * precip_norm cd +
            factors.humidity_weight * humidity_norm cd +
            factors.wind_weight * wind_norm cd + 1) / 2 * d.random_factor) 0) 1 +
          get_seasonal_adjustment rt month d.seasonal_u) 0) 1 ∧
    Option.map RiskFactorWeights.precipitation_weight (risk_factors "drought") =
      some (-0.5) :=
  ⟨calculate_risk_score_known cd rt factors month d h, rfl⟩

theorem known_hazard_score_shape_witness :
    calculate_risk_score ⟨20, 30, 50, 10⟩ "flood" 4 ⟨0, 1, 1/2⟩ =
      min (max (min (max (((0.1 : ℚ) * temp_norm ⟨20, 30, 50, 10⟩ +
            0.4 * precip_norm ⟨20, 30, 50, 10⟩ +
            0.3 * humidity_norm ⟨20, 30, 50, 10⟩ +
            0.2 * wind_norm ⟨20, 30, 50, 10⟩ + 1) / 2 * 1) 0) 1 +
          get_seasonal_adjustment "flood" 4 (1/2)) 0) 1 :=
  (known_hazard_score_shape ⟨20, 30, 50, 10⟩ "flood" ⟨0.4, 0.1, 0.3, 0.2⟩ 4 ⟨0, 1, 1/2⟩ rfl).1

/-- Claim C9: the classification never reads the "low" threshold entry:
replacing it by any value leaves the function unchanged, and the
low/medium boundary is 0.6 everywhere. -/
theorem low_threshold_unused :
    (∀ x s : ℚ, get_risk_level_with ⟨x, 0.6, 0.8⟩ s = get_risk_level s) ∧
    (∀ s : ℚ, (get_risk_level s = "low" ↔ s < 0.6)) := by
  constructor
  · intro x s; rfl
  · intro s
    unfold get_risk_level get_risk_level_with risk_thresholds
    split_ifs <;> simp <;> linarith

/-- Claim C10: the confidence computation does not depend on the hazard
tag passed to it: any two hazard tags give the same confidence under the
same observation and jitter draw. -/
theorem confidence_hazard_noninterference (cd : ClimateData) (j : ℚ) (rt1 rt2 : String) :
    calculate_confidence cd rt1 j = calculate_confidence cd rt2 j := rfl

theorem seasonal_off_season (rt : String) (month : ℕ) (h : ¬ inSeason rt month) (u : ℚ) :
    get_seasonal_adjustment rt month u = uniform (-0.05) 0.05 u := by
  unfold get_seasonal_adjustment
  split_ifs with h1 h2 h3 h4
  · exact absurd (Or.inl h1) h
  · exact absurd (Or.inr (Or.inl h2)) h
  · exact absurd (Or.inr (Or.inr (Or.inl h3))) h
  · exact absurd (Or.inr (Or.inr (Or.inr h4))) h
  · rfl

/-- Claim C8: the seasonal adjustment is a positive bonus in [0.05, 0.2]
for all draws exactly when the hazard's canonical season contains the
month (heatwave Jun-Aug, flood Mar-May, drought Jul-Sep, storm Sep-Nov);
otherwise (wildfire never being in season) it lies in [−0.05, 0.05]; the
final score clamps the pre-seasonal score plus the adjustment to [0, 1]. -/
theorem seasonal_adjustment_bands (rt : String) (month : ℕ) :
    (inSeason rt month ↔
      ∀ u : ℚ, 0 ≤ u → u ≤ 1 →
        0 < get_seasonal_adjustment rt month u ∧
        0.05 ≤ get_seasonal_adjustment rt month u ∧
        get_seasonal_adjustment rt month u ≤ 0.2) ∧
    (¬ inSeason rt month →
      ∀ u : ℚ, 0 ≤ u → u ≤ 1 →
        -0.05 ≤ get_seasonal_adjustment rt month u ∧
        get_seasonal_adjustment rt month u ≤ 0.05) ∧
    (∀ m : ℕ, ¬ inSeason "wildfire" m) ∧
    (∀ (cd : ClimateData) (factors : RiskFactorWeights) (d : Draws),
      risk_factors rt = some factors →
      calculate_risk_score cd rt month d =
        min (max (min (max ((factors.temperature_weight * temp_norm cd +
              factors.precipitation_weight * precip_norm cd +
              factors.humidity_weight * humidity_norm cd +
              factors.wind_weight * wind_norm cd + 1) / 2 * d.random_factor) 0) 1 +
            get_seasonal_adjustment rt month d.seasonal_u) 0) 1) := by
  refine ⟨⟨fun hs u hu0 hu1 => ?_, fun hall => ?_⟩, fun hns u hu0 hu1 => ?_, ?_, ?_⟩
  · unfold get_seasonal_adjustment uniform
    split_ifs with h1 h2 h3 h4
    · exact ⟨by nlinarith, by nlinarith, by nlinarith⟩
    · exact ⟨by nlinarith, by nlinarith, by nlinarith⟩
    · exact ⟨by nlinarith, by nlinarith, by nlinarith⟩
    · exact ⟨by nlinarith, by nlinarith, by nlinarith⟩
    · unfold inSeason at hs
      rcases hs with h | h | h | h
      · exact absurd h h1
      · exact absurd h h2
      · exact absurd h h3
      · exact absurd h h4
  · by_contra hns
    have h0 := hall 0 le_rfl zero_le_one
    rw [seasonal_off_season rt month hns 0] at h0
    unfold uniform at h0
    norm_num at h0
  · rw [seasonal_off_season rt month hns u]
    unfold uniform
    constructor <;> nlinarith
  · intro m
    unfold inSeason
    simp
  · intro cd factors d h
    exact calculate_risk_score_known cd rt factors month d h

theorem seasonal_adjustment_bands_witness :
    -0.05 ≤ get_seasonal_adjustment "wildfire" 7 (1/2) ∧
      get_seasonal_adjustment "wildfire" 7 (1/2) ≤ 0.05 :=
  (seasonal_adjustment_bands "wildfire" 7).2.1 (by simp [inSeason]) (1/2)
    (by norm_num) (by norm_num)

theorem argmax_foldl_mem (f : String → ℚ) (a : String) (l : List String) :
    List.foldl (argmax_step f) a l = a ∨ List.foldl (argmax_step f) a l ∈ l := by
  induction l generalizing a with
  | nil => exact Or.inl rfl
  | cons x t ih =>
    simp only [List.foldl_cons]
    rcases ih (argmax_step f a x) with h | h
    · rw [h]
      unfold argmax_step
      split_ifs
      · exact Or.inr (List.mem_cons_self x t)
      · exact Or.inl rfl
    · exact Or.inr (List.mem_cons_of_mem x h)

theorem argmax_foldl_le (f : String → ℚ) (a : String) (l : List String) :
    f a ≤ f (List.foldl (argmax_step f) a l) ∧
    ∀ h ∈ l, f h ≤ f (List.foldl (argmax_step f) a l) := by
  induction l generalizing a with
  | nil => exact ⟨le_rfl, by simp⟩
  | cons x t ih =>
    simp only [List.foldl_cons]
    obtain ⟨ih1, ih2⟩ := ih (argmax_step f a x)
    have hstep : f a ≤ f (argmax_step f a x) ∧ f x ≤ f (argmax_step f a x) := by
      unfold argmax_step
      split_ifs with hc
      · exact ⟨le_of_lt hc, le_rfl⟩
      · exact ⟨le_rfl, le_of_not_lt hc⟩
    refine ⟨le_trans hstep.1 ih1, ?_⟩
    intro h hm
    rcases List.mem_cons.mp hm with rfl | hm'
    · exact le_trans hstep.2 ih1
    · exact ih2 h hm'

theorem argmax_foldl_first (f : String → ℚ) (a : String) (l : List String) :
    ∀ h ∈ (a :: l).takeWhile (fun x => x ≠ List.foldl (argmax_step f) a l),
      f h < f (List.foldl (argmax_step f) a l) := by
  induction l generalizing a with
  | nil =>
    intro h hm
    simp at hm
  | cons x t ih =>
    simp only [List.foldl_cons]
    by_cases ha : a = List.foldl (argmax_step f) (argmax_step f a x) t
    · intro h hm
      rw [List.takeWhile_cons_of_neg (by simp only [← ha]; simp)] at hm
      simp at hm
    · intro h hm
      rw [List.takeWhile_cons_of_pos (by simp [ha])] at hm
      rcases List.mem_cons.mp hm with rfl | hm'
      · by_cases hc : f h < f x
        · have hx : argmax_step f h x = x := if_pos hc
          have hle := (argmax_foldl_le f x t).1
          rw [hx]
          rw [hx] at ha
          calc f h < f x := hc
            _ ≤ f (List.foldl (argmax_step f) x t) := hle
        · have hx : argmax_step f h x = h := if_neg hc
          rw [hx] at ha ⊢
          apply ih h h
          rw [List.takeWhile_cons_of_pos (by simp [ha])]
          exact List.mem_cons_self h _
      · by_cases hc : f a < f x
        · have hx : argmax_step f a x = x := if_pos hc
          simp only [hx] at hm' ⊢
          exact ih x h hm'
        · have hx : argmax_step f a x = a := if_neg hc
          simp only [hx] at hm' ha ⊢
          have haf : f a < f (List.foldl (argmax_step f) a t) := by
            apply ih a a
            rw [List.takeWhile_cons_of_pos (by simp [ha])]
            exact List.mem_cons_self a _
          by_cases hxr : x = List.foldl (argmax_step f) a t
          · rw [List.takeWhile_cons_of_neg (by simp [hxr])] at hm'
            simp at hm'
          · rw [List.takeWhile_cons_of_pos (by simp [hxr])] at hm'
            rcases List.mem_cons.mp hm' with rfl | hm''
            · have : f h ≤ f a := le_of_not_lt hc
              linarith
            · apply ih a h
              rw [List.takeWhile_cons_of_pos (by simp [ha])]
              exact List.mem_cons_of_mem a hm''

/-- Claim C6: with no hazard supplied, primary-hazard selection scores all
five hazards and returns one whose score is the maximum of the five, and
every hazard occurring before it in the enumeration order flood, drought,
heatwave, wildfire, storm has strictly smaller score (first-of-the-ties). -/
theorem primary_risk_first_argmax (cd : ClimateData) (month : ℕ) (draws : String → Draws) :
    determine_primary_risk cd month draws ∈ hazard_keys ∧
    (∀ h ∈ hazard_keys,
      score_of cd month draws h ≤
        score_of cd month draws (determine_primary_risk cd month draws)) ∧
    (∀ h ∈ hazard_keys.takeWhile (fun x => x ≠ determine_primary_risk cd month draws),
      score_of cd month draws h <
        score_of cd month draws (determine_primary_risk cd month draws)) := by
  refine ⟨?_, ?_, ?_⟩
  · rcases argmax_foldl_mem (score_of cd month draws) "flood"
        ["drought", "heatwave", "wildfire", "storm"] with h | h
    · rw [show determine_primary_risk cd month draws =
          List.foldl (argmax_step (score_of cd month draws)) "flood"
            ["drought", "heatwave", "wildfire", "storm"] from rfl, h]
      simp [hazard_keys]
    · unfold hazard_keys
      exact List.mem_cons_of_mem _ h
  · intro h hm
    obtain ⟨h1, h2⟩ := argmax_foldl_le (score_of cd month draws) "flood"
      ["drought", "heatwave", "wildfire", "storm"]
    rcases List.mem_cons.mp hm with rfl | hm'
    · exact h1
    · exact h2 h hm'
  · exact argmax_foldl_first (score_of cd month draws) "flood"
      ["drought", "heatwave", "wildfire", "storm"]

theorem primary_risk_first_argmax_witness :
    score_of ⟨20, 30, 50, 10⟩ 4 (fun _ => ⟨1/2, 1, 1/2⟩) "storm" ≤
      score_of ⟨20, 30, 50, 10⟩ 4 (fun _ => ⟨1/2, 1, 1/2⟩)
        (determine_primary_risk ⟨20, 30, 50, 10⟩ 4 (fun _ => ⟨1/2, 1, 1/2⟩)) :=
  (primary_risk_first_argmax ⟨20, 30, 50, 10⟩ 4 (fun _ => ⟨1/2, 1, 1/2⟩)).2.1 "storm" (by decide)
